import Mathlib

/-!
Verification of the json-cacher repository (fetcher.py, api_server.py).

The embedding models JSON values, the flat files shared by the two
processes, the fetcher's rate-limit gate, retry loop, change detection,
backup/restore, and the API server's configuration handling, all
translated directly from the Python source.  Time is modelled in whole
epoch seconds (an Int), JSON numbers as integers, and the HTTP layer as
an explicit list of per-attempt outcomes supplied to the fetch cycle.
-/

namespace JsonCacher

/-- JSON values as produced by Python's json module.  Objects keep their
insertion order, as Python dicts do; numbers are modelled as integers. -/
inductive Json where
  | null : Json
  | boolean (b : Bool) : Json
  | number (n : Int) : Json
  | string (s : String) : Json
  | array (xs : List Json) : Json
  | object (fields : List (String × Json)) : Json
deriving Repr

/-- Python truthiness of a JSON value (None, False, 0, "", [], {} are falsy). -/
def Json.truthy : Json → Bool
  | .null => false
  | .boolean b => b
  | .number n => decide (n ≠ 0)
  | .string s => decide (s ≠ "")
  | .array xs => !xs.isEmpty
  | .object fs => !fs.isEmpty

/-- Dict lookup, `d[k]` / `d.get(k)`, on a Python dict (first binding wins). -/
def lookupKey (fs : List (String × Json)) (k : String) : Option Json :=
  match fs with
  | [] => none
  | (k0, v) :: rest => if k0 = k then some v else lookupKey rest k

/-- Dict membership test: `k in d` on a Python dict. -/
def hasKey (fs : List (String × Json)) (k : String) : Bool :=
  (lookupKey fs k).isSome

/-- Dict assignment `d[k] = v`: replaces the value in place when the key is
present, appends the binding otherwise (Python dict insertion order). -/
def setKey (fs : List (String × Json)) (k : String) (v : Json) :
    List (String × Json) :=
  if hasKey fs k then
    fs.map (fun kv => if kv.1 = k then (k, v) else kv)
  else
    fs ++ [(k, v)]

/-- Dict deletion `del d[k]` (removes every binding of the key; a real
Python dict holds at most one). -/
def eraseKey (fs : List (String × Json)) (k : String) : List (String × Json) :=
  fs.filter (fun kv => kv.1 ≠ k)

/-! ### Canonical serialization: `json.dumps(x, sort_keys=True)`

The comparison in the change-detection code and the claim about it both go
through this serialization, so it is modelled once, as a list of
characters, with object keys sorted at every level and Python's default
separators. -/

/-- The decimal digit character for `d < 10`. -/
def decDigitChar (d : Nat) : Char := Char.ofNat (d + 48)

/-- Decimal digits of a natural number, most significant first, with an
explicit recursion bound so that the kernel can evaluate it (the bound is
spent once per division by 10, so `n` starts with more than enough). -/
def natDigitsF : Nat → Nat → List Char
  | 0, _ => []
  | fuel + 1, n =>
    if n < 10 then [decDigitChar n]
    else natDigitsF fuel (n / 10) ++ [decDigitChar (n % 10)]

/-- Decimal digits of a natural number, most significant first. -/
def natDigits (n : Nat) : List Char := natDigitsF (n + 1) n

/-- Decimal rendering of an integer. -/
def intChars (n : Int) : List Char :=
  if n < 0 then '-' :: natDigits n.natAbs else natDigits n.toNat

/-- JSON string-body escaping (backslash and double quote). -/
def escapeChars : List Char → List Char
  | [] => []
  | c :: rest =>
    (if c = '\\' then [ '\\', '\\' ]
     else if c = '"' then [ '\\', '"' ]
     else [c]) ++ escapeChars rest

/-- Join rendered items with Python's default item separator `", "`. -/
def joinComma : List (List Char) → List Char
  | [] => []
  | [x] => x
  | x :: y :: rest => x ++ (',' :: ' ' :: joinComma (y :: rest))

/-- Insert a key-value pair into a key-sorted list of pairs. -/
def insertPair (p : String × Json) : List (String × Json) → List (String × Json)
  | [] => [p]
  | q :: rest => if p.1 ≤ q.1 then p :: q :: rest else q :: insertPair p rest

/-- Sort the fields of an object by key (the effect of `sort_keys=True`
at one object level). -/
def sortPairs (fs : List (String × Json)) : List (String × Json) :=
  fs.foldr insertPair []

/-- One step of `json.dumps(x, sort_keys=True)` rendering with Python's
default separators: every object's fields are sorted by key before being
rendered, and the value's children are rendered recursively.  The `fuel`
argument only bounds the recursion depth so that the kernel can evaluate
the function; `dumpsCanon` below always supplies sufficient fuel, one
recursion level being spent per tree level. -/
def dumpsCanonF : Nat → Json → List Char
  | 0, _ => []
  | fuel + 1, j =>
    match j with
    | .null => [ 'n', 'u', 'l', 'l' ]
    | .boolean true => [ 't', 'r', 'u', 'e' ]
    | .boolean false => [ 'f', 'a', 'l', 's', 'e' ]
    | .number n => intChars n
    | .string s => '"' :: (escapeChars s.data ++ [ '"' ])
    | .array xs => '[' :: (joinComma (xs.map (dumpsCanonF fuel)) ++ [ ']' ])
    | .object fs => '{' :: (joinComma ((sortPairs fs).map (fun kv =>
        '"' :: (escapeChars kv.1.data ++ ('"' :: ':' :: ' ' :: dumpsCanonF fuel kv.2))))
        ++ [ '}' ])

mutual

/-- Height of a JSON tree: the fuel `dumpsCanon` hands to `dumpsCanonF`,
strictly larger than the height of every child. -/
def jsonHeight : Json → Nat
  | .null => 1
  | .boolean _ => 1
  | .number _ => 1
  | .string _ => 1
  | .array xs => jsonHeightList xs + 1
  | .object fs => jsonHeightFields fs + 1

def jsonHeightList : List Json → Nat
  | [] => 0
  | x :: xs => max (jsonHeight x) (jsonHeightList xs)

def jsonHeightFields : List (String × Json) → Nat
  | [] => 0
  | (_, v) :: rest => max (jsonHeight v) (jsonHeightFields rest)

end

/-- The `json.dumps(x, sort_keys=True)` canonical string form used by the
change-detection comparison. -/
def dumpsCanon (j : Json) : List Char := dumpsCanonF (jsonHeight j) j

/-! ### The flat files shared by the two processes -/

/-- Content of one on-disk JSON file: absent, present but not parseable
(`json.load` raises), or present with a parsed value. -/
inductive FileContent where
  | missing : FileContent
  | corrupt : FileContent
  | json (j : Json) : FileContent
deriving Repr

/-- The two data files the fetch engine reads and writes:
`cached_data.json` and `last_successful_response.json`. -/
structure Files where
  cache : FileContent
  backup : FileContent
deriving Repr

namespace Fetcher

/-- fetcher.py constant `MAX_RETRIES`. -/
def MAX_RETRIES : Nat := 3

/-- fetcher.py constant `RETRY_DELAY` (seconds). -/
def RETRY_DELAY : Nat := 10

/-- The configuration as seen by the fetcher after `load_config`, which
starts from `DEFAULT_CONFIG` and guarantees `endpoint_url` and
`api_description`; every field below is therefore always present.
Logging-only settings (`log_level`, `log_response_filter`) do not affect
any modelled behaviour and are omitted. -/
structure Config where
  fetch_interval_seconds : Int
  rate_limit_enabled : Bool
  test_mode : Bool
  api_header_type : String
  api_key : String
  endpoint_url : String
  api_description : String
deriving Repr

/-- The fetcher state dict (`fetcher_state.json`).  The first five fields
are the keys of `DEFAULT_STATE`; the last three are the connection-status
keys that api_server.py reads with `state.get(...)` defaults — they are
`Option`s because no key with those names is ever created by the code
under src/, so reads fall back to the defaults. -/
structure StateData where
  last_api_call_timestamp : Int
  api_calls_count : Nat
  successful_fetches_count : Nat
  failed_fetches_count : Nat
  last_successful_fetch : Option String
  connection_status : Option String
  last_connection_change : Option String
  consecutive_failures : Option Nat
deriving Repr

/-- fetcher.py `DEFAULT_STATE`. -/
def DEFAULT_STATE : StateData :=
  { last_api_call_timestamp := 0
    api_calls_count := 0
    successful_fetches_count := 0
    failed_fetches_count := 0
    last_successful_fetch := none
    connection_status := none
    last_connection_change := none
    consecutive_failures := none }

/-- fetcher.py `can_call_api(config, state)`: allowed unless rate limiting
is enabled and less than the configured interval has elapsed since the
last call.  `now` stands for `time.time()`. -/
def can_call_api (config : Config) (state : StateData) (now : Int) : Bool :=
  if !config.rate_limit_enabled then true
  else
    let min_time_between_calls := config.fetch_interval_seconds
    let time_since_last_call := now - state.last_api_call_timestamp
    if time_since_last_call < min_time_between_calls then false
    else true

/-- fetcher.py `update_api_call_timestamp(state)`. -/
def update_api_call_timestamp (state : StateData) (now : Int) : StateData :=
  { state with
    last_api_call_timestamp := now
    api_calls_count := state.api_calls_count + 1 }

/-- fetcher.py `calculate_next_run_time(config, state)`. -/
def calculate_next_run_time (config : Config) (state : StateData) (now : Int) : Int :=
  let fetch_interval := config.fetch_interval_seconds
  if config.rate_limit_enabled then
    let time_since_last_call := now - state.last_api_call_timestamp
    if time_since_last_call < fetch_interval then
      fetch_interval - time_since_last_call
    else fetch_interval
  else fetch_interval

/-! ### One fetch cycle: the retry loop -/

/-- Outcome of one `requests.get` attempt as the environment presents it:
a response with a status code and (when the body parses as JSON) the
parsed body, or a raised exception (network error, timeout). -/
inductive Attempt where
  | response (code : Nat) (body : Option Json) : Attempt
  | exn : Attempt
deriving Repr

/-- An attempt succeeds when the status code is 200 and the body parses to
a JSON object.  (A 200 body that fails to parse, or parses to a non-dict
— on which the later `data["_meta"] = ...` item assignment raises — ends
the attempt with an exception, which the loop treats as a transient
failure.) -/
def attemptSuccess : Attempt → Option (List (String × Json))
  | .response code body =>
    if code = 200 then
      match body with
      | some (.object fs) => some fs
      | _ => none
    else none
  | .exn => none

/-- A client-error response: `400 <= status_code < 500`, which aborts the
retry loop (`break`). -/
def attemptClientError : Attempt → Bool
  | .response code _ => decide (400 ≤ code) && decide (code < 500)
  | .exn => false

/-- Result of running the retry loop of `fetch_and_cache`. -/
structure LoopResult where
  attemptsMade : Nat
  successBody : Option (List (String × Json))
  sleeps : List Nat
deriving Repr

/-- The `for attempt in range(MAX_RETRIES)` loop of `fetch_and_cache`:
success returns immediately; a 4xx breaks; any other failure sleeps
`RETRY_DELAY` (unless it was the final attempt) and retries.  `fuel` is
the number of attempts still allowed, `rs` the environment's outcomes
for the successive attempts (an exhausted list means network errors). -/
def runAttempts : Nat → List Attempt → LoopResult
  | 0, _ => ⟨0, none, []⟩
  | fuel + 1, rs =>
    let a := rs.headD .exn
    match attemptSuccess a with
    | some body => ⟨1, some body, []⟩
    | none =>
      if attemptClientError a then ⟨1, none, []⟩
      else if fuel = 0 then ⟨1, none, []⟩
      else
        let rest := runAttempts fuel rs.tail
        ⟨rest.attemptsMade + 1, rest.successBody, RETRY_DELAY :: rest.sleeps⟩

/-! ### Change detection, metadata envelope, and the full fetch cycle -/

/-- The endpoint-masking of `fetch_and_cache` (a `urlparse`-based
reduction of the URL to `scheme://netloc/***`, falling back to the part
before the first slash).  Its exact value is logging/metadata-only and is
never inspected by any claim. -/
def maskEndpoint (u : String) : String :=
  match u.splitOn "://" with
  | scheme :: rest :: _ =>
    let netloc := (rest.splitOn "/").headD ""
    if netloc ≠ "" then scheme ++ "://" ++ netloc ++ "/***"
    else ((u.splitOn "/").headD u) ++ "/***"
  | _ => ((u.splitOn "/").headD u) ++ "/***"

/-- The change-detection block of `fetch_and_cache` (fetcher.py 348-371):
`data_changed` starts `True`; when the cache file exists and everything in
the comparison succeeds, the previous payload minus its `_meta` key and
the new payload are both rendered with `json.dumps(_, sort_keys=True)`
and compared; equality flips the flag to `False`.  Any exception inside
the comparison (unreadable file, `del` on a list, `.copy()` on a scalar)
leaves the flag `True`. -/
def computeDataChanged (cacheFile : FileContent) (data : List (String × Json)) : Bool :=
  match cacheFile with
  | .missing => true
  | .corrupt => true
  | .json old =>
    match old with
    | .object old_fs =>
      let old_copy := if hasKey old_fs "_meta" then eraseKey old_fs "_meta" else old_fs
      if dumpsCanon (.object old_copy) = dumpsCanon (.object data) then false else true
    | .array xs =>
      if xs.any (fun x => x matches .string "_meta") then true
      else if dumpsCanon (.array xs) = dumpsCanon (.object data) then false else true
    | _ => true

/-- The `_meta` envelope injected on a live successful fetch. -/
def fetchMeta (nowIso : String) (masked : String) (changed : Bool) : Json :=
  .object [("fetched_at", .string nowIso), ("source", .string masked),
        ("status_code", .number 200), ("cache_timestamp", .string nowIso),
        ("changed", .boolean changed)]

/-- The `_meta` envelope injected on a test-mode fetch. -/
def testMeta (nowIso : String) : Json :=
  .object [("fetched_at", .string nowIso), ("source", .string "TEST_MODE"),
        ("is_sample_data", .boolean true)]

/-- fetcher.py `create_backup(data)`: the backup file the function writes,
a timestamped envelope around the cached payload. -/
def create_backup (data : Json) (nowIso : String) : FileContent :=
  .json (.object [("timestamp", .string nowIso), ("data", data)])

/-- Observable outcome of one call to `fetch_and_cache`: the returned
boolean, the state and files afterwards, and how many HTTP attempts and
inter-attempt sleeps the cycle performed. -/
structure FetchResult where
  returned : Bool
  state : StateData
  files : Files
  attemptsMade : Nat
  sleeps : List Nat
deriving Repr

/-- fetcher.py `fetch_and_cache(config, state)`.  External inputs are made
explicit: `rs` is the HTTP environment (one entry per attempt the cycle
would make), `sample` the randomized payload `generate_sample_data` would
return, `now`/`nowIso` the clock.  Test mode bypasses the rate gate and
the network; otherwise the rate gate is consulted, the call counter
bumped, and the retry loop run; only a successful cycle rewrites the
cache and backup files. -/
def fetch_and_cache (config : Config) (state : StateData) (files : Files)
    (rs : List Attempt) (sample : List (String × Json))
    (now : Int) (nowIso : String) : FetchResult :=
  if config.test_mode then
    let data := setKey sample "_meta" (testMeta nowIso)
    let files1 : Files :=
      { cache := .json (.object data), backup := create_backup (.object data) nowIso }
    let state1 := { state with
      last_successful_fetch := some nowIso
      successful_fetches_count := state.successful_fetches_count + 1 }
    ⟨true, state1, files1, 0, []⟩
  else if can_call_api config state now then
    let state1 := update_api_call_timestamp state now
    if config.endpoint_url = "" then ⟨false, state1, files, 0, []⟩
    else
      let lr := runAttempts MAX_RETRIES rs
      match lr.successBody with
      | some body =>
        let data_changed := computeDataChanged files.cache body
        let data := setKey body "_meta"
          (fetchMeta nowIso (maskEndpoint config.endpoint_url) data_changed)
        let files1 : Files :=
          { cache := .json (.object data), backup := create_backup (.object data) nowIso }
        let state2 := { state1 with
          last_successful_fetch := some nowIso
          successful_fetches_count := state1.successful_fetches_count + 1 }
        ⟨true, state2, files1, lr.attemptsMade, lr.sleeps⟩
      | none =>
        let state2 := { state1 with
          failed_fetches_count := state1.failed_fetches_count + 1 }
        ⟨false, state2, files, lr.attemptsMade, lr.sleeps⟩
  else ⟨false, state, files, 0, []⟩

/-- The `_meta` envelope placed on a payload restored from backup. -/
def restoredMeta (origTs : Json) (nowIso : String) : Json :=
  .object [("restored_from_backup", .boolean true), ("original_timestamp", origTs),
        ("restored_at", .string nowIso)]

/-- The startup block of fetcher.py `run()` (lines 444-464): when no cache
file exists but a backup file does, read the backup, take its `data`
field, and — only when that value is truthy — tag it with a
restored-from-backup `_meta` and write it as the cache file.  Any raised
exception (unreadable backup, `.get` on a non-dict, item assignment on a
non-dict payload) is caught and leaves the cache absent. -/
def startupRestore (files : Files) (nowIso : String) : Files :=
  match files.cache with
  | .missing =>
    match files.backup with
    | .json (.object bfs) =>
      let data := (lookupKey bfs "data").getD .null
      if data.truthy then
        match data with
        | .object dfs =>
          { files with cache := .json (.object (setKey dfs "_meta"
              (restoredMeta ((lookupKey bfs "timestamp").getD .null) nowIso))) }
        | _ => files
      else files
    | _ => files
  | _ => files

/-! ### The fetcher's `load_config` -/

/-- Python `dict.update`: apply every binding of `upd` to `base`, in order. -/
def dictUpdate (base upd : List (String × Json)) : List (String × Json) :=
  upd.foldl (fun acc kv => setKey acc kv.1 kv.2) base

/-- fetcher.py `DEFAULT_CONFIG`. -/
def DEFAULT_CONFIG : List (String × Json) :=
  [("fetch_interval_seconds", .number 300), ("rate_limit_enabled", .boolean true),
   ("test_mode", .boolean false), ("api_header_type", .string "bearer"),
   ("api_key", .string "")]

/-- Python `str.upper()` on an (ASCII) configuration key. -/
def strUpper (s : String) : String := String.mk (s.data.map Char.toUpper)

/-- Python `str.lower()` on an (ASCII) configuration key. -/
def strLower (s : String) : String := String.mk (s.data.map Char.toLower)

/-- The backwards-compatibility loop of `load_config`: for every key of
the loaded dict, when an uppercase variant is present and the lowercase
one absent, bind the lowercase key to the uppercase key's value. -/
def foldCaseKeys (config : List (String × Json)) : List (String × Json) :=
  (config.map Prod.fst).foldl (fun acc k =>
    if hasKey acc (strUpper k) && !(hasKey acc (strLower k)) then
      setKey acc (strLower k) ((lookupKey acc (strUpper k)).getD .null)
    else acc) config

/-- fetcher.py `load_config()`: defaults, merged with the config file when
it parses to a dict, `endpoint_url`/`api_description` defaults filled in,
key-case migration, legacy `api_endpoint` mapping — and then the whole
resulting dict, sensitive keys included, is written back to the config
file.  Returns the in-memory config and the file written. -/
def load_config (file : FileContent) : (List (String × Json)) × FileContent :=
  let config := DEFAULT_CONFIG
  let config := match file with
    | .json (.object saved) => dictUpdate config saved
    | _ => config
  let config := if hasKey config "endpoint_url" then config
    else setKey config "endpoint_url" (.string "https://api.example.com/v1/data")
  let config := if hasKey config "api_description" then config
    else setKey config "api_description" (.string "API")
  let config := foldCaseKeys config
  let config := if hasKey config "api_endpoint" && !(hasKey config "endpoint_url")
    then setKey config "endpoint_url" ((lookupKey config "api_endpoint").getD .null)
    else config
  (config, .json (.object config))

end Fetcher

namespace ApiServer

/-- The key list both `save_config` and `GET /config` filter out
(api_server.py 210-211 and 405-406). -/
def SENSITIVE_KEYS : List String := ["api_endpoint", "api_description", "API_KEY"]

/-- The dict-comprehension filter `{k: v for k, v in config.items() if k
not in ["api_endpoint", "api_description", "API_KEY"]}` shared by
`save_config` and the `/config` responses. -/
def sanitizeConfig (config : List (String × Json)) : List (String × Json) :=
  config.filter (fun kv => !(SENSITIVE_KEYS.contains kv.1))

/-- api_server.py `save_config(config)`: the sanitized dict it writes to
the config file (modelling the success path; a write error fails soft). -/
def save_config (config : List (String × Json)) : List (String × Json) :=
  sanitizeConfig config

/-- Handler of `GET /config`: the body returned, `safe_config`. -/
def manage_config_get (config : List (String × Json)) : List (String × Json) :=
  sanitizeConfig config

/-- Python `int(x)` on a JSON value, as used on `fetch_interval_seconds`:
integers pass, booleans coerce (bool is an int subclass), decimal strings
parse, anything else raises ValueError/TypeError. -/
def jsonToInt : Json → Option Int
  | .number n => some n
  | .boolean b => some (if b then 1 else 0)
  | .string s => s.toInt?
  | _ => none

/-- Outcome of `POST /config`: HTTP status, the sanitized dict
`save_config` wrote (`none` when nothing was saved), and the response
message. -/
structure PostResult where
  status : Nat
  savedConfig : Option (List (String × Json))
  message : Option String
deriving Repr

/-- Handler of `POST /config` (api_server.py 409-458), on a parsed JSON-object body.
The checks run in source order: empty body 400; invalid or too-small
interval 400 (returning before any other field is applied); then
`rate_limit_enabled` is coerced with `bool(...)`; a body carrying
`endpoint_url` gets 403 (again before saving anything);
`api_description` is copied verbatim; finally `save_config` writes the
sanitized result (`saveOk` models its success). -/
def manage_config_post (config body : List (String × Json)) (saveOk : Bool) :
    PostResult :=
  if body.isEmpty then ⟨400, none, some "No data provided"⟩
  else
    let step : Except (Nat × String) (List (String × Json)) :=
      match lookupKey body "fetch_interval_seconds" with
      | none => .ok config
      | some v =>
        match jsonToInt v with
        | none => .error (400, "fetch_interval_seconds must be an integer")
        | some interval =>
          if interval < 10 then
            .error (400, "fetch_interval_seconds must be at least 10 seconds")
          else .ok (setKey config "fetch_interval_seconds" (.number interval))
    match step with
    | .error (s, m) => ⟨s, none, some m⟩
    | .ok config1 =>
      let config2 := match lookupKey body "rate_limit_enabled" with
        | none => config1
        | some v => setKey config1 "rate_limit_enabled" (.boolean v.truthy)
      if hasKey body "endpoint_url" then
        ⟨403, none,
         some "Updating API endpoint via API is not allowed for security reasons"⟩
      else
        let config3 := match lookupKey body "api_description" with
          | none => config2
          | some v => setKey config2 "api_description" v
        if saveOk then
          ⟨200, some (save_config config3), some "Configuration updated successfully"⟩
        else ⟨500, none, some "Failed to save configuration"⟩

/-- api_server.py `get_cached_data()`: the parsed cache file when it
exists and parses (whatever value it holds); otherwise the backup's
`data` field when the backup exists and parses to a dict; otherwise
`None`. -/
def get_cached_data (files : Files) : Option Json :=
  match files.cache with
  | .json j => some j
  | _ =>
    match files.backup with
    | .json (.object bfs) => some ((lookupKey bfs "data").getD .null)
    | _ => none

/-- Response of `GET /data`. -/
inductive DataResponse where
  | ok (body : Json) : DataResponse
  | notFound : DataResponse
deriving Repr

/-- Handler of `GET /data` (api_server.py 225-240): 200 with `get_cached_data()`
when that value is truthy, else 404 with an error body. -/
def get_data (files : Files) : DataResponse :=
  match get_cached_data files with
  | some d => if d.truthy then .ok d else .notFound
  | none => .notFound

end ApiServer

/-! ## Supporting lemmas -/

theorem lookupKey_eq_none_iff (fs : List (String × Json)) (k : String) :
    lookupKey fs k = none ↔ ∀ kv ∈ fs, kv.1 ≠ k := by
  induction fs with
  | nil => simp [lookupKey]
  | cons q rest ih =>
    obtain ⟨k0, v0⟩ := q
    by_cases hq : k0 = k <;> simp [lookupKey, hq, ih]

theorem lookupKey_filter_keep (config : List (String × Json)) (k : String)
    (p : String × Json → Bool) (hk : ∀ v, p (k, v) = true) :
    lookupKey (config.filter p) k = lookupKey config k := by
  induction config with
  | nil => rfl
  | cons q rest ih =>
    obtain ⟨k0, v⟩ := q
    by_cases hq : k0 = k
    · subst hq
      rw [List.filter_cons, if_pos (by simpa using hk v)]
      simp [lookupKey]
    · rw [List.filter_cons]
      by_cases hp : p (k0, v) = true
      · rw [if_pos (by simpa using hp)]
        simp [lookupKey, hq, ih]
      · rw [if_neg (by simpa using hp)]
        simp [lookupKey, hq, ih]

/-- Sanitization does not touch keys outside the filtered list. -/
theorem lookupKey_sanitize (config : List (String × Json)) (k : String)
    (hk : ApiServer.SENSITIVE_KEYS.contains k = false) :
    lookupKey (ApiServer.sanitizeConfig config) k = lookupKey config k := by
  apply lookupKey_filter_keep
  intro v
  simpa using hk

theorem lookupKey_map_replace (fs : List (String × Json)) (k : String) (v : Json)
    (h : (lookupKey fs k).isSome = true) :
    lookupKey (fs.map (fun kv => if kv.1 = k then (k, v) else kv)) k = some v := by
  induction fs with
  | nil => simp [lookupKey] at h
  | cons q rest ih =>
    obtain ⟨k0, v0⟩ := q
    simp only [List.map_cons]
    by_cases hq : k0 = k
    · rw [if_pos (show ((k0, v0)).1 = k from hq)]
      show (if k = k then some v else lookupKey (rest.map _) k) = some v
      rw [if_pos rfl]
    · rw [if_neg (show ¬((k0, v0)).1 = k from hq)]
      show (if k0 = k then some v0 else
        lookupKey (rest.map (fun kv => if kv.1 = k then (k, v) else kv)) k) = some v
      rw [if_neg hq]
      apply ih
      have h' : (if k0 = k then some v0 else lookupKey rest k).isSome = true := h
      rwa [if_neg hq] at h'

theorem lookupKey_append_right (fs tl : List (String × Json)) (k : String)
    (h : lookupKey fs k = none) :
    lookupKey (fs ++ tl) k = lookupKey tl k := by
  induction fs with
  | nil => rfl
  | cons q rest ih =>
    obtain ⟨k0, v0⟩ := q
    by_cases hq : k0 = k
    · simp [lookupKey, hq] at h
    · simp only [lookupKey, if_neg hq] at h
      simp only [List.cons_append, lookupKey, if_neg hq]
      exact ih h

theorem lookupKey_setKey_self (fs : List (String × Json)) (k : String) (v : Json) :
    lookupKey (setKey fs k v) k = some v := by
  unfold setKey
  by_cases h : hasKey fs k = true
  · rw [if_pos h]
    exact lookupKey_map_replace fs k v (by simpa [hasKey] using h)
  · rw [if_neg h]
    have hn : lookupKey fs k = none := by
      simpa [hasKey, Option.isSome_iff_ne_none] using h
    rw [lookupKey_append_right fs _ k hn]
    simp [lookupKey]

theorem eraseKey_map_replace (fs : List (String × Json)) (k : String) (v : Json) :
    eraseKey (fs.map (fun kv => if kv.1 = k then (k, v) else kv)) k = eraseKey fs k := by
  induction fs with
  | nil => rfl
  | cons q rest ih =>
    obtain ⟨k0, v0⟩ := q
    simp only [List.map_cons]
    by_cases hq : k0 = k
    · rw [if_pos (show ((k0, v0)).1 = k from hq)]
      simp only [eraseKey, List.filter_cons] at ih ⊢
      simp [hq]
      simpa using ih
    · rw [if_neg (show ¬((k0, v0)).1 = k from hq)]
      simp only [eraseKey, List.filter_cons] at ih ⊢
      simp [hq]
      simpa using ih

theorem eraseKey_setKey_self (fs : List (String × Json)) (k : String) (v : Json) :
    eraseKey (setKey fs k v) k = eraseKey fs k := by
  unfold setKey
  by_cases h : hasKey fs k = true
  · rw [if_pos h]
    exact eraseKey_map_replace fs k v
  · rw [if_neg h]
    simp [eraseKey, List.filter_append, List.filter_cons]

/-- Erasing a key that is not bound is the identity. -/
theorem eraseKey_of_not_hasKey (fs : List (String × Json)) (k : String)
    (h : hasKey fs k = false) : eraseKey fs k = fs := by
  have hn : ∀ kv ∈ fs, kv.1 ≠ k := by
    refine (lookupKey_eq_none_iff fs k).mp ?_
    simpa [hasKey, Option.isSome_iff_ne_none] using h
  unfold eraseKey
  rw [List.filter_eq_self]
  intro kv hkv
  simpa using hn kv hkv

theorem getD_zero_eq_headD (rs : List Fetcher.Attempt) :
    rs.getD 0 .exn = rs.headD .exn := by
  cases rs <;> rfl

theorem getD_tail_eq (rs : List Fetcher.Attempt) (j : Nat) :
    rs.tail.getD j .exn = rs.getD (j + 1) .exn := by
  cases rs <;> rfl

theorem runAttempts_le (fuel : Nat) (rs : List Fetcher.Attempt) :
    (Fetcher.runAttempts fuel rs).attemptsMade ≤ fuel := by
  induction fuel generalizing rs with
  | zero => exact Nat.le_refl 0
  | succ n ih =>
    unfold Fetcher.runAttempts
    cases hs : Fetcher.attemptSuccess (rs.headD .exn) with
    | some b =>
      simp only [hs]
      omega
    | none =>
      simp only [hs]
      by_cases hc : Fetcher.attemptClientError (rs.headD .exn) = true
      · rw [if_pos hc]
        dsimp only
        omega
      · rw [if_neg hc]
        by_cases hn : n = 0
        · rw [if_pos hn]
          dsimp only
          omega
        · rw [if_neg hn]
          have := ih rs.tail
          dsimp only
          omega

theorem runAttempts_pos (fuel : Nat) (rs : List Fetcher.Attempt) (h : 1 ≤ fuel) :
    1 ≤ (Fetcher.runAttempts fuel rs).attemptsMade := by
  cases fuel with
  | zero => omega
  | succ n =>
    unfold Fetcher.runAttempts
    cases hs : Fetcher.attemptSuccess (rs.headD .exn) with
    | some b =>
      simp only [hs]
      omega
    | none =>
      simp only [hs]
      by_cases hc : Fetcher.attemptClientError (rs.headD .exn) = true
      · rw [if_pos hc]
      · rw [if_neg hc]
        by_cases hn : n = 0
        · rw [if_pos hn]
        · rw [if_neg hn]
          dsimp only
          omega

theorem runAttempts_sleeps (fuel : Nat) (rs : List Fetcher.Attempt) :
    (Fetcher.runAttempts fuel rs).sleeps =
      List.replicate ((Fetcher.runAttempts fuel rs).attemptsMade - 1)
        Fetcher.RETRY_DELAY := by
  induction fuel generalizing rs with
  | zero => rfl
  | succ n ih =>
    unfold Fetcher.runAttempts
    cases hs : Fetcher.attemptSuccess (rs.headD .exn) with
    | some b =>
      simp only [hs]
      rfl
    | none =>
      simp only [hs]
      by_cases hc : Fetcher.attemptClientError (rs.headD .exn) = true
      · rw [if_pos hc]
        rfl
      · rw [if_neg hc]
        by_cases hn : n = 0
        · rw [if_pos hn]
          rfl
        · rw [if_neg hn]
          show Fetcher.RETRY_DELAY :: (Fetcher.runAttempts n rs.tail).sleeps
            = List.replicate ((Fetcher.runAttempts n rs.tail).attemptsMade + 1 - 1)
                Fetcher.RETRY_DELAY
          have hp := runAttempts_pos n rs.tail (by omega)
          rw [ih rs.tail]
          have hrw : (Fetcher.runAttempts n rs.tail).attemptsMade + 1 - 1
              = ((Fetcher.runAttempts n rs.tail).attemptsMade - 1) + 1 := by omega
          rw [hrw, List.replicate_succ]

theorem runAttempts_nonfinal (fuel : Nat) (rs : List Fetcher.Attempt) (i : Nat)
    (h : i + 1 < (Fetcher.runAttempts fuel rs).attemptsMade) :
    Fetcher.attemptSuccess (rs.getD i .exn) = none
    ∧ Fetcher.attemptClientError (rs.getD i .exn) = false := by
  induction fuel generalizing rs i with
  | zero =>
    exact absurd h (by simp [Fetcher.runAttempts])
  | succ n ih =>
    unfold Fetcher.runAttempts at h
    cases hs : Fetcher.attemptSuccess (rs.headD .exn) with
    | some b =>
      simp only [hs] at h
      try dsimp only at h
      omega
    | none =>
      simp only [hs] at h
      by_cases hc : Fetcher.attemptClientError (rs.headD .exn) = true
      · rw [if_pos hc] at h
        try dsimp only at h
        omega
      · rw [if_neg hc] at h
        by_cases hn : n = 0
        · rw [if_pos hn] at h
          try dsimp only at h
          omega
        · rw [if_neg hn] at h
          try dsimp only at h
          cases i with
          | zero =>
            rw [getD_zero_eq_headD]
            exact ⟨hs, by simpa using hc⟩
          | succ j =>
            have hj : j + 1 < (Fetcher.runAttempts n rs.tail).attemptsMade := by omega
            have := ih rs.tail j hj
            rwa [getD_tail_eq] at this

theorem attemptSuccess_of_clientError (a : Fetcher.Attempt)
    (h : Fetcher.attemptClientError a = true) :
    Fetcher.attemptSuccess a = none := by
  cases a with
  | exn => simp [Fetcher.attemptClientError] at h
  | response code body =>
    simp only [Fetcher.attemptClientError, Bool.and_eq_true, decide_eq_true_eq] at h
    simp only [Fetcher.attemptSuccess]
    rw [if_neg (show ¬code = 200 by omega)]

theorem runAttempts_clientError_first (fuel : Nat) (rs : List Fetcher.Attempt)
    (hf : 1 ≤ fuel) (h : Fetcher.attemptClientError (rs.headD .exn) = true) :
    Fetcher.runAttempts fuel rs = ⟨1, none, []⟩ := by
  cases fuel with
  | zero => omega
  | succ n =>
    unfold Fetcher.runAttempts
    simp only [attemptSuccess_of_clientError (rs.headD .exn) h, h, if_true]

theorem natDigitsF_head : ∀ fuel, 1 ≤ fuel → ∀ n : Nat,
    ∃ d, d < 10 ∧ (natDigitsF fuel n).head? = some (decDigitChar d) := by
  intro fuel
  induction fuel with
  | zero => intro h; exact absurd h (by omega)
  | succ f ih =>
    intro _ n
    unfold natDigitsF
    by_cases h : n < 10
    · rw [if_pos h]
      exact ⟨n, h, rfl⟩
    · rw [if_neg h]
      cases hf2 : f with
      | zero =>
        subst hf2
        exact ⟨n % 10, Nat.mod_lt _ (by omega), rfl⟩
      | succ f2 =>
        subst hf2
        obtain ⟨d, hd, hh⟩ := ih (by omega) (n / 10)
        refine ⟨d, hd, ?_⟩
        cases hnd : natDigitsF (f2 + 1) (n / 10) with
        | nil =>
          rw [hnd] at hh
          simp at hh
        | cons c t =>
          rw [hnd] at hh
          simpa using hh

theorem intChars_head (n : Int) :
    ∃ c, (intChars n).head? = some c ∧ c ≠ '{' := by
  unfold intChars
  by_cases h : n < 0
  · rw [if_pos h]
    exact ⟨'-', rfl, by decide⟩
  · rw [if_neg h]
    unfold natDigits
    obtain ⟨d, hd, hh⟩ := natDigitsF_head (n.toNat + 1) (by omega) n.toNat
    refine ⟨decDigitChar d, hh, ?_⟩
    have hall : ∀ e, e < 10 → decDigitChar e ≠ '{' := by decide
    exact hall d hd

theorem dumpsCanon_obj_head (fs : List (String × Json)) :
    (dumpsCanon (.object fs)).head? = some '{' := by
  simp [dumpsCanon, jsonHeight, dumpsCanonF]

/-- A value that is not a JSON object never serializes like one: its
canonical rendering starts with a different character. -/
theorem dumpsCanon_ne_obj (j : Json) (b : List (String × Json))
    (hj : (j matches Json.object _) = false) :
    dumpsCanon j ≠ dumpsCanon (.object b) := by
  intro heq
  have hh : (dumpsCanon j).head? = some '{' := by
    rw [heq]
    exact dumpsCanon_obj_head b
  cases j with
  | object fs => simp at hj
  | null =>
    rw [show (dumpsCanon .null).head? = some 'n' by
      simp [dumpsCanon, jsonHeight, dumpsCanonF]] at hh
    exact absurd hh (by decide)
  | boolean bv =>
    cases bv
    · rw [show (dumpsCanon (.boolean false)).head? = some 'f' by
        simp [dumpsCanon, jsonHeight, dumpsCanonF]] at hh
      exact absurd hh (by decide)
    · rw [show (dumpsCanon (.boolean true)).head? = some 't' by
        simp [dumpsCanon, jsonHeight, dumpsCanonF]] at hh
      exact absurd hh (by decide)
  | string s =>
    rw [show (dumpsCanon (.string s)).head? = some '"' by
      simp [dumpsCanon, jsonHeight, dumpsCanonF]] at hh
    exact absurd hh (by decide)
  | array xs =>
    rw [show (dumpsCanon (.array xs)).head? = some '[' by
      simp [dumpsCanon, jsonHeight, dumpsCanonF]] at hh
    exact absurd hh (by decide)
  | number n =>
    obtain ⟨c, hc, hne⟩ := intChars_head n
    rw [show (dumpsCanon (.number n)).head? = (intChars n).head? by
      simp [dumpsCanon, jsonHeight, dumpsCanonF]] at hh
    rw [hc] at hh
    exact hne (Option.some.inj hh)

/-- The payload with the metadata envelope removed (the claim's notion of
core content): the top-level `_meta` key of an object is dropped, any
other value is untouched. -/
def stripMeta : Json → Json
  | .object fs => .object (eraseKey fs "_meta")
  | j => j

/-- The change-detection flag is `false` exactly when a previous cache
file exists, parses, and its payload minus the metadata envelope has the
same canonical sorted-keys serialization as the new payload. -/
theorem computeDataChanged_false_iff (cacheFile : FileContent)
    (body : List (String × Json)) :
    Fetcher.computeDataChanged cacheFile body = false ↔
      ∃ old, cacheFile = .json old
        ∧ dumpsCanon (stripMeta old) = dumpsCanon (.object body) := by
  cases cacheFile with
  | missing =>
    simp [Fetcher.computeDataChanged]
  | corrupt =>
    simp [Fetcher.computeDataChanged]
  | json old =>
    simp only [Fetcher.computeDataChanged]
    cases old with
    | object old_fs =>
      dsimp only
      have hstrip : stripMeta (.object old_fs) = .object (eraseKey old_fs "_meta") := rfl
      by_cases hm : hasKey old_fs "_meta" = true
      · rw [if_pos hm]
        constructor
        · intro hfalse
          by_cases heq : dumpsCanon (.object (eraseKey old_fs "_meta"))
              = dumpsCanon (.object body)
          · exact ⟨.object old_fs, rfl, by rw [hstrip]; exact heq⟩
          · rw [if_neg heq] at hfalse
            exact Bool.noConfusion hfalse
        · rintro ⟨old', hj, heq⟩
          injection hj with hj2
          subst hj2
          rw [hstrip] at heq
          rw [if_pos heq]
      · rw [if_neg hm]
        have herase : eraseKey old_fs "_meta" = old_fs :=
          eraseKey_of_not_hasKey old_fs "_meta" (by simpa using hm)
        constructor
        · intro hfalse
          by_cases heq : dumpsCanon (.object old_fs) = dumpsCanon (.object body)
          · exact ⟨.object old_fs, rfl, by rw [hstrip, herase]; exact heq⟩
          · rw [if_neg heq] at hfalse
            exact Bool.noConfusion hfalse
        · rintro ⟨old', hj, heq⟩
          injection hj with hj2
          subst hj2
          rw [hstrip, herase] at heq
          rw [if_pos heq]
    | array xs =>
      dsimp only
      have hstrip : stripMeta (.array xs) = .array xs := rfl
      by_cases hmem : xs.any (fun x => x matches .string "_meta") = true
      · rw [if_pos hmem]
        simp only [Bool.true_eq_false, false_iff, not_exists]
        intro old'
        rintro ⟨hj, heq⟩
        injection hj with hj2
        subst hj2
        rw [hstrip] at heq
        exact dumpsCanon_ne_obj (.array xs) body rfl heq
      · rw [if_neg hmem]
        constructor
        · intro hfalse
          by_cases heq : dumpsCanon (.array xs) = dumpsCanon (.object body)
          · exact ⟨.array xs, rfl, by rw [hstrip]; exact heq⟩
          · rw [if_neg heq] at hfalse
            exact Bool.noConfusion hfalse
        · rintro ⟨old', hj, heq⟩
          injection hj with hj2
          subst hj2
          rw [hstrip] at heq
          rw [if_pos heq]
    | null =>
      dsimp only
      simp only [Bool.true_eq_false, false_iff, not_exists]
      intro old'
      rintro ⟨hj, heq⟩
      injection hj with hj2
      subst hj2
      exact dumpsCanon_ne_obj .null body rfl heq
    | boolean bv =>
      dsimp only
      simp only [Bool.true_eq_false, false_iff, not_exists]
      intro old'
      rintro ⟨hj, heq⟩
      injection hj with hj2
      subst hj2
      exact dumpsCanon_ne_obj (.boolean bv) body rfl heq
    | number n =>
      dsimp only
      simp only [Bool.true_eq_false, false_iff, not_exists]
      intro old'
      rintro ⟨hj, heq⟩
      injection hj with hj2
      subst hj2
      exact dumpsCanon_ne_obj (.number n) body rfl heq
    | string s =>
      dsimp only
      simp only [Bool.true_eq_false, false_iff, not_exists]
      intro old'
      rintro ⟨hj, heq⟩
      injection hj with hj2
      subst hj2
      exact dumpsCanon_ne_obj (.string s) body rfl heq

/-! ## Claim theorems -/

/-- A configuration dict exactly as the fetcher's own `load_config`
produces and persists it, with a non-empty API secret. -/
def demoConfig : List (String × Json) :=
  [("fetch_interval_seconds", .number 300), ("rate_limit_enabled", .boolean true),
   ("test_mode", .boolean false), ("api_header_type", .string "bearer"),
   ("api_key", .string "secret-token"),
   ("endpoint_url", .string "https://api.example.com/v1/data"),
   ("api_description", .string "API")]

/-- C1.  The sanitization invariant fails in the code: the filter shared
by `save_config` and `GET /config` removes only the legacy keys
`api_endpoint` and `API_KEY`, so the canonical `endpoint_url` and
`api_key` keys — the ones `load_config` actually produces — are persisted
to the on-disk copy and returned by `GET /config` (only the description
is excluded as claimed), and the fetcher's `load_config` itself writes
the full configuration, endpoint URL included, back to the config
file. -/
theorem c1_sanitization_fails_on_canonical_keys :
    lookupKey (ApiServer.save_config demoConfig) "endpoint_url"
        = some (.string "https://api.example.com/v1/data")
    ∧ lookupKey (ApiServer.save_config demoConfig) "api_key"
        = some (.string "secret-token")
    ∧ lookupKey (ApiServer.manage_config_get demoConfig) "endpoint_url"
        = some (.string "https://api.example.com/v1/data")
    ∧ lookupKey (ApiServer.manage_config_get demoConfig) "api_key"
        = some (.string "secret-token")
    ∧ lookupKey (ApiServer.manage_config_get demoConfig) "api_description" = none
    ∧ (Fetcher.load_config .missing).2
        = .json (.object ((Fetcher.load_config .missing).1))
    ∧ lookupKey (Fetcher.load_config .missing).1 "endpoint_url"
        = some (.string "https://api.example.com/v1/data") := by
  refine ⟨rfl, rfl, rfl, rfl, rfl, rfl, rfl⟩

/-- C2.  The claim fails in the code: `fetch_and_cache` — the only state
writer in fetcher.py — never touches the connection-status tag, the
last-status-change timestamp, or the consecutive-failure count, whatever
the cycle's outcome (test mode, rate-limited, success, or exhausted
retries); no code under src/ ever creates those keys, so starting from
`DEFAULT_STATE` the tag the API reads stays at its `"unknown"` default
forever, never reflecting any success/failure pattern. -/
theorem c2_connection_fields_never_written (config : Fetcher.Config)
    (state : Fetcher.StateData) (files : Files) (rs : List Fetcher.Attempt)
    (sample : List (String × Json)) (now : Int) (nowIso : String) :
    ((Fetcher.fetch_and_cache config state files rs sample now nowIso).state.connection_status
        = state.connection_status)
    ∧ ((Fetcher.fetch_and_cache config state files rs sample now nowIso).state.last_connection_change
        = state.last_connection_change)
    ∧ ((Fetcher.fetch_and_cache config state files rs sample now nowIso).state.consecutive_failures
        = state.consecutive_failures)
    ∧ ((Fetcher.fetch_and_cache config Fetcher.DEFAULT_STATE files rs sample now
          nowIso).state.connection_status.getD "unknown" = "unknown") := by
  have frame : ∀ st : Fetcher.StateData,
      ((Fetcher.fetch_and_cache config st files rs sample now nowIso).state.connection_status
          = st.connection_status)
      ∧ ((Fetcher.fetch_and_cache config st files rs sample now nowIso).state.last_connection_change
          = st.last_connection_change)
      ∧ ((Fetcher.fetch_and_cache config st files rs sample now nowIso).state.consecutive_failures
          = st.consecutive_failures) := by
    intro st
    unfold Fetcher.fetch_and_cache
    by_cases ht : config.test_mode = true
    · rw [if_pos ht]
      exact ⟨rfl, rfl, rfl⟩
    · rw [if_neg ht]
      by_cases hcc : Fetcher.can_call_api config st now = true
      · rw [if_pos hcc]
        by_cases he : config.endpoint_url = ""
        · rw [if_pos he]
          exact ⟨rfl, rfl, rfl⟩
        · rw [if_neg he]
          cases hsb : (Fetcher.runAttempts Fetcher.MAX_RETRIES rs).successBody with
          | some body =>
            simp only [hsb]
            exact ⟨rfl, rfl, rfl⟩
          | none =>
            simp only [hsb]
            exact ⟨rfl, rfl, rfl⟩
      · rw [if_neg hcc]
        exact ⟨rfl, rfl, rfl⟩
  refine ⟨(frame state).1, (frame state).2.1, (frame state).2.2, ?_⟩
  rw [(frame Fetcher.DEFAULT_STATE).1]
  rfl

/-- Stored configuration for the C3 scenario: an endpoint is configured
and a well-formed interval is present. -/
def c3Config : List (String × Json) :=
  [("endpoint_url", .string "https://api.example.com/v1/data"),
   ("fetch_interval_seconds", .number 300)]

/-- A `POST /config` body that attempts to set the fetch endpoint through
the legacy `api_endpoint` key. -/
def c3Body : List (String × Json) :=
  [("api_endpoint", .string "https://attacker.example/steal")]

/-- C3 counterexample.  A body carrying the legacy `api_endpoint` key is
not rejected: the endpoint check in `manage_config` tests only the
canonical `endpoint_url` key, so the request returns 200 (not the claimed
403) — though the stored endpoint is indeed left unchanged, the key being
silently ignored. -/
theorem c3_legacy_key_returns_200 :
    (ApiServer.manage_config_post c3Config c3Body true).status = 200
    ∧ (ApiServer.manage_config_post c3Config c3Body true).savedConfig
        = some [("endpoint_url", .string "https://api.example.com/v1/data"),
                ("fetch_interval_seconds", .number 300)] := ⟨rfl, rfl⟩

/-- C3 as amended.  Only bodies containing the canonical `endpoint_url`
key are rejected — with 403 (or with 400 when an invalid interval in the
same body is rejected first), and in every such case nothing is saved, so
the stored endpoint is unchanged; a body carrying only the legacy
`api_endpoint` key is ignored: the request returns 200 and the saved
configuration's endpoint URL is exactly the stored one. -/
theorem c3_endpoint_url_rejected_legacy_ignored :
    (∀ config body : List (String × Json), ∀ saveOk : Bool,
      hasKey body "endpoint_url" = true →
      ((ApiServer.manage_config_post config body saveOk).status = 403
        ∨ (ApiServer.manage_config_post config body saveOk).status = 400)
      ∧ (ApiServer.manage_config_post config body saveOk).savedConfig = none)
    ∧ (∀ config : List (String × Json), ∀ v : Json,
        (ApiServer.manage_config_post config [("api_endpoint", v)] true).status = 200
        ∧ (ApiServer.manage_config_post config [("api_endpoint", v)] true).savedConfig
            = some (ApiServer.save_config config)
        ∧ lookupKey (ApiServer.save_config config) "endpoint_url"
            = lookupKey config "endpoint_url") := by
  constructor
  · intro config body saveOk h
    have hne : body.isEmpty = false := by
      cases body with
      | nil => simp [hasKey, lookupKey] at h
      | cons q rest => rfl
    unfold ApiServer.manage_config_post
    rw [if_neg (by simp [hne])]
    cases h1 : lookupKey body "fetch_interval_seconds" with
    | none =>
      dsimp only
      rw [if_pos h]
      exact ⟨Or.inl rfl, rfl⟩
    | some v =>
      dsimp only
      cases h2 : ApiServer.jsonToInt v with
      | none => exact ⟨Or.inr rfl, rfl⟩
      | some i =>
        dsimp only
        by_cases h3 : i < 10
        · rw [if_pos h3]
          exact ⟨Or.inr rfl, rfl⟩
        · rw [if_neg h3]
          dsimp only
          rw [if_pos h]
          exact ⟨Or.inl rfl, rfl⟩
  · intro config v
    exact ⟨rfl, rfl, lookupKey_sanitize config "endpoint_url" rfl⟩

/-- C3 witness: the amended rejection applied to a concrete body that
names `endpoint_url` directly. -/
theorem c3_endpoint_url_rejected_witness :
    ((ApiServer.manage_config_post c3Config [("endpoint_url", Json.string "x")] true).status = 403
      ∨ (ApiServer.manage_config_post c3Config [("endpoint_url", Json.string "x")] true).status = 400)
    ∧ (ApiServer.manage_config_post c3Config [("endpoint_url", Json.string "x")] true).savedConfig
        = none :=
  c3_endpoint_url_rejected_legacy_ignored.1 c3Config [("endpoint_url", Json.string "x")] true rfl

/-- An empty pair of data files. -/
def demoFiles : Files := { cache := .missing, backup := .missing }

/-- A configuration with rate limiting enabled at a 300-second interval. -/
def c4Config : Fetcher.Config :=
  { fetch_interval_seconds := 300, rate_limit_enabled := true, test_mode := false,
    api_header_type := "bearer", api_key := "",
    endpoint_url := "https://api.example.com/v1/data", api_description := "API" }

/-- C4.  A non-test cycle is eligible iff rate limiting is disabled or
the elapsed time since the last call is at least the configured interval,
and a refused cycle returns failure leaving the state (call counter
included) and the files completely untouched, with no HTTP attempt
made. -/
theorem c4_rate_limit_gate (config : Fetcher.Config) (state : Fetcher.StateData)
    (files : Files) (rs : List Fetcher.Attempt) (sample : List (String × Json))
    (now : Int) (nowIso : String) (htest : config.test_mode = false) :
    (Fetcher.can_call_api config state now = true ↔
      (config.rate_limit_enabled = false ∨
        config.fetch_interval_seconds ≤ now - state.last_api_call_timestamp))
    ∧ (Fetcher.can_call_api config state now = false →
        Fetcher.fetch_and_cache config state files rs sample now nowIso
          = ⟨false, state, files, 0, []⟩) := by
  constructor
  · unfold Fetcher.can_call_api
    cases hr : config.rate_limit_enabled
    · simp
    · dsimp only [Bool.not_true]
      rw [if_neg (by simp)]
      by_cases hlt : now - state.last_api_call_timestamp < config.fetch_interval_seconds
      · rw [if_pos hlt]
        simp only [Bool.false_eq_true, false_iff]
        rintro (hcontra | hle)
        · exact Bool.noConfusion hcontra
        · omega
      · rw [if_neg hlt]
        simp only [true_iff]
        right
        omega
  · intro hc
    unfold Fetcher.fetch_and_cache
    rw [if_neg (by simp [htest]), if_neg (by simp [hc])]

/-- C4 witness: with the interval at 300 and the last call at time 0, a
cycle at time 100 is refused and changes nothing. -/
theorem c4_rate_limit_gate_witness :
    (Fetcher.can_call_api c4Config Fetcher.DEFAULT_STATE 100 = true ↔
      (c4Config.rate_limit_enabled = false ∨
        c4Config.fetch_interval_seconds
          ≤ 100 - Fetcher.DEFAULT_STATE.last_api_call_timestamp))
    ∧ (Fetcher.can_call_api c4Config Fetcher.DEFAULT_STATE 100 = false →
        Fetcher.fetch_and_cache c4Config Fetcher.DEFAULT_STATE demoFiles [] [] 100 "T"
          = ⟨false, Fetcher.DEFAULT_STATE, demoFiles, 0, []⟩) :=
  c4_rate_limit_gate c4Config Fetcher.DEFAULT_STATE demoFiles [] [] 100 "T" rfl

/-- C5.  An eligible non-test cycle makes at most `MAX_RETRIES = 3` HTTP
attempts with exactly one fixed `RETRY_DELAY = 10`-second sleep between
consecutive attempts; every non-final attempt was a retryable failure
(neither a success nor a 4xx), so a 4xx response — which cannot be a
non-final attempt — aborts the cycle immediately, in particular a leading
client error stops it after exactly 1 attempt; the cycle increments the
failed-fetch counter exactly once iff it did not succeed; a single 404
yields exactly 1 attempt, no sleep, one recorded failure; a
[500, 500, 200] sequence yields exactly 3 attempts, two fixed sleeps, and
one recorded success. -/
theorem c5_retry_policy (config : Fetcher.Config) (state : Fetcher.StateData)
    (files : Files) (rs : List Fetcher.Attempt) (sample : List (String × Json))
    (now : Int) (nowIso : String)
    (htest : config.test_mode = false)
    (hcan : Fetcher.can_call_api config state now = true)
    (hend : config.endpoint_url ≠ "") :
    ((Fetcher.fetch_and_cache config state files rs sample now nowIso).attemptsMade
        ≤ Fetcher.MAX_RETRIES)
    ∧ ((Fetcher.fetch_and_cache config state files rs sample now nowIso).sleeps
        = List.replicate
            ((Fetcher.fetch_and_cache config state files rs sample now nowIso).attemptsMade
              - 1) Fetcher.RETRY_DELAY)
    ∧ (∀ i, i + 1 <
          (Fetcher.fetch_and_cache config state files rs sample now nowIso).attemptsMade →
        Fetcher.attemptSuccess (rs.getD i .exn) = none
        ∧ Fetcher.attemptClientError (rs.getD i .exn) = false)
    ∧ (Fetcher.attemptClientError (rs.headD .exn) = true →
        (Fetcher.fetch_and_cache config state files rs sample now nowIso).attemptsMade = 1
        ∧ (Fetcher.fetch_and_cache config state files rs sample now nowIso).returned = false)
    ∧ ((Fetcher.fetch_and_cache config state files rs sample now nowIso).returned = true →
        (Fetcher.fetch_and_cache config state files rs sample now
            nowIso).state.failed_fetches_count = state.failed_fetches_count)
    ∧ ((Fetcher.fetch_and_cache config state files rs sample now nowIso).returned = false →
        (Fetcher.fetch_and_cache config state files rs sample now
            nowIso).state.failed_fetches_count = state.failed_fetches_count + 1)
    ∧ ((Fetcher.fetch_and_cache config state files [.response 404 none] sample now
          nowIso).attemptsMade = 1
        ∧ (Fetcher.fetch_and_cache config state files [.response 404 none] sample now
            nowIso).returned = false
        ∧ (Fetcher.fetch_and_cache config state files [.response 404 none] sample now
            nowIso).state.failed_fetches_count = state.failed_fetches_count + 1
        ∧ (Fetcher.fetch_and_cache config state files [.response 404 none] sample now
            nowIso).sleeps = [])
    ∧ (∀ payload : List (String × Json),
        (Fetcher.fetch_and_cache config state files
            [.response 500 none, .response 500 none, .response 200 (some (.object payload))]
            sample now nowIso).attemptsMade = 3
        ∧ (Fetcher.fetch_and_cache config state files
            [.response 500 none, .response 500 none, .response 200 (some (.object payload))]
            sample now nowIso).returned = true
        ∧ (Fetcher.fetch_and_cache config state files
            [.response 500 none, .response 500 none, .response 200 (some (.object payload))]
            sample now nowIso).sleeps = [Fetcher.RETRY_DELAY, Fetcher.RETRY_DELAY]
        ∧ (Fetcher.fetch_and_cache config state files
            [.response 500 none, .response 500 none, .response 200 (some (.object payload))]
            sample now nowIso).state.failed_fetches_count = state.failed_fetches_count
        ∧ (Fetcher.fetch_and_cache config state files
            [.response 500 none, .response 500 none, .response 200 (some (.object payload))]
            sample now nowIso).state.successful_fetches_count
              = state.successful_fetches_count + 1) := by
  have hmain : ∀ rs' : List Fetcher.Attempt,
      ((Fetcher.fetch_and_cache config state files rs' sample now nowIso).attemptsMade
          = (Fetcher.runAttempts Fetcher.MAX_RETRIES rs').attemptsMade)
      ∧ ((Fetcher.fetch_and_cache config state files rs' sample now nowIso).sleeps
          = (Fetcher.runAttempts Fetcher.MAX_RETRIES rs').sleeps)
      ∧ ((Fetcher.fetch_and_cache config state files rs' sample now nowIso).returned
          = (Fetcher.runAttempts Fetcher.MAX_RETRIES rs').successBody.isSome)
      ∧ ((Fetcher.fetch_and_cache config state files rs' sample now
            nowIso).state.failed_fetches_count
          = state.failed_fetches_count
            + (if (Fetcher.runAttempts Fetcher.MAX_RETRIES rs').successBody.isSome
               then 0 else 1))
      ∧ ((Fetcher.fetch_and_cache config state files rs' sample now
            nowIso).state.successful_fetches_count
          = state.successful_fetches_count
            + (if (Fetcher.runAttempts Fetcher.MAX_RETRIES rs').successBody.isSome
               then 1 else 0)) := by
    intro rs'
    unfold Fetcher.fetch_and_cache
    rw [if_neg (by simp [htest]), if_pos hcan, if_neg hend]
    cases hsb : (Fetcher.runAttempts Fetcher.MAX_RETRIES rs').successBody with
    | some b =>
      simp only [hsb]
      refine ⟨?_, ?_, ?_, ?_, ?_⟩ <;> first | rfl | trivial
    | none =>
      simp only [hsb]
      refine ⟨?_, ?_, ?_, ?_, ?_⟩ <;> first | rfl | trivial
  refine ⟨?_, ?_, ?_, ?_, ?_, ?_, ?_, ?_⟩
  · rw [(hmain rs).1]
    exact runAttempts_le _ _
  · rw [(hmain rs).2.1, (hmain rs).1]
    exact runAttempts_sleeps _ _
  · intro i hi
    rw [(hmain rs).1] at hi
    exact runAttempts_nonfinal _ _ i hi
  · intro hce
    have h1 := runAttempts_clientError_first Fetcher.MAX_RETRIES rs (by decide) hce
    constructor
    · rw [(hmain rs).1, h1]
    · rw [(hmain rs).2.2.1, h1]
      rfl
  · intro hret
    rw [(hmain rs).2.2.1] at hret
    rw [(hmain rs).2.2.2.1, hret]
    rfl
  · intro hret
    rw [(hmain rs).2.2.1] at hret
    rw [(hmain rs).2.2.2.1, hret]
    rfl
  · refine ⟨?_, ?_, ?_, ?_⟩
    · rw [(hmain [.response 404 none]).1]
      rfl
    · rw [(hmain [.response 404 none]).2.2.1]
      rfl
    · rw [(hmain [.response 404 none]).2.2.2.1]
      rfl
    · rw [(hmain [.response 404 none]).2.1]
      rfl
  · intro payload
    refine ⟨?_, ?_, ?_, ?_, ?_⟩
    · rw [(hmain _).1]
      rfl
    · rw [(hmain _).2.2.1]
      rfl
    · rw [(hmain _).2.1]
      rfl
    · rw [(hmain _).2.2.2.1]
      rfl
    · rw [(hmain _).2.2.2.2]
      rfl

/-- C5 witness: the retry-policy bounds applied to a concrete eligible
cycle hitting a network error. -/
theorem c5_retry_policy_witness :
    (Fetcher.fetch_and_cache c4Config Fetcher.DEFAULT_STATE demoFiles [.exn] [] 1000
        "T").attemptsMade ≤ Fetcher.MAX_RETRIES
    ∧ (Fetcher.fetch_and_cache c4Config Fetcher.DEFAULT_STATE demoFiles
          [.response 404 none] [] 1000 "T").attemptsMade = 1 :=
  ⟨(c5_retry_policy c4Config Fetcher.DEFAULT_STATE demoFiles [.exn] [] 1000 "T" rfl rfl
      (by decide)).1,
   (c5_retry_policy c4Config Fetcher.DEFAULT_STATE demoFiles [.exn] [] 1000 "T" rfl rfl
      (by decide)).2.2.2.2.2.2.1.1⟩

/-- C6.  On every successful fetch the new cache file is the fetched
payload with a `_meta` envelope whose `changed` flag is exactly
`computeDataChanged`, and the cache and backup files are written in the
same way whatever that flag's value (the flag appears only inside the
envelope); the flag is `false` iff a previous cache file exists, parses,
and its payload with the metadata envelope removed has the same canonical
sorted-keys serialization as the new payload — any mismatch, absent, or
unreadable previous cache gives `true`. -/
theorem c6_change_detection (config : Fetcher.Config) (state : Fetcher.StateData)
    (files : Files) (rs : List Fetcher.Attempt) (sample : List (String × Json))
    (now : Int) (nowIso : String)
    (htest : config.test_mode = false)
    (hcan : Fetcher.can_call_api config state now = true)
    (hend : config.endpoint_url ≠ "")
    (body : List (String × Json))
    (hsucc : (Fetcher.runAttempts Fetcher.MAX_RETRIES rs).successBody = some body) :
    ((Fetcher.fetch_and_cache config state files rs sample now nowIso).files.cache
        = .json (.object (setKey body "_meta"
            (Fetcher.fetchMeta nowIso (Fetcher.maskEndpoint config.endpoint_url)
              (Fetcher.computeDataChanged files.cache body)))))
    ∧ ((Fetcher.fetch_and_cache config state files rs sample now nowIso).files.backup
        = Fetcher.create_backup (.object (setKey body "_meta"
            (Fetcher.fetchMeta nowIso (Fetcher.maskEndpoint config.endpoint_url)
              (Fetcher.computeDataChanged files.cache body)))) nowIso)
    ∧ (lookupKey (setKey body "_meta"
          (Fetcher.fetchMeta nowIso (Fetcher.maskEndpoint config.endpoint_url)
            (Fetcher.computeDataChanged files.cache body))) "_meta"
        = some (Fetcher.fetchMeta nowIso (Fetcher.maskEndpoint config.endpoint_url)
            (Fetcher.computeDataChanged files.cache body)))
    ∧ (Fetcher.computeDataChanged files.cache body = false ↔
        ∃ old, files.cache = .json old
          ∧ dumpsCanon (stripMeta old) = dumpsCanon (.object body)) := by
  refine ⟨?_, ?_, lookupKey_setKey_self _ _ _,
    computeDataChanged_false_iff files.cache body⟩ <;>
  · unfold Fetcher.fetch_and_cache
    rw [if_neg (by simp [htest]), if_pos hcan, if_neg hend]
    simp only [hsucc]

/-- Payload used by the C6 witness. -/
def c6Body : List (String × Json) := [("x", .number 1)]

/-- A single successful HTTP attempt carrying `c6Body`. -/
def c6Rs : List Fetcher.Attempt := [.response 200 (some (.object c6Body))]

/-- C6 witness: the change-detection postcondition applied to a concrete
successful cycle over an empty cache. -/
theorem c6_change_detection_witness :
    ((Fetcher.fetch_and_cache c4Config Fetcher.DEFAULT_STATE demoFiles c6Rs [] 1000
        "T").files.cache
      = .json (.object (setKey c6Body "_meta"
          (Fetcher.fetchMeta "T" (Fetcher.maskEndpoint c4Config.endpoint_url)
            (Fetcher.computeDataChanged demoFiles.cache c6Body)))))
    ∧ ((Fetcher.fetch_and_cache c4Config Fetcher.DEFAULT_STATE demoFiles c6Rs [] 1000
        "T").files.backup
      = Fetcher.create_backup (.object (setKey c6Body "_meta"
          (Fetcher.fetchMeta "T" (Fetcher.maskEndpoint c4Config.endpoint_url)
            (Fetcher.computeDataChanged demoFiles.cache c6Body)))) "T")
    ∧ (lookupKey (setKey c6Body "_meta"
          (Fetcher.fetchMeta "T" (Fetcher.maskEndpoint c4Config.endpoint_url)
            (Fetcher.computeDataChanged demoFiles.cache c6Body))) "_meta"
        = some (Fetcher.fetchMeta "T" (Fetcher.maskEndpoint c4Config.endpoint_url)
            (Fetcher.computeDataChanged demoFiles.cache c6Body)))
    ∧ (Fetcher.computeDataChanged demoFiles.cache c6Body = false ↔
        ∃ old, demoFiles.cache = .json old
          ∧ dumpsCanon (stripMeta old) = dumpsCanon (.object c6Body)) :=
  c6_change_detection c4Config Fetcher.DEFAULT_STATE demoFiles c6Rs [] 1000 "T" rfl rfl
    (by decide) c6Body rfl

/-- C8.  The scheduler's next-run delay is the configured interval minus
the elapsed time since the last call when rate limiting is enabled and
the elapsed time is below the interval, and the full interval
otherwise. -/
theorem c8_next_run_delay (config : Fetcher.Config) (state : Fetcher.StateData)
    (now : Int) :
    Fetcher.calculate_next_run_time config state now =
      if config.rate_limit_enabled = true ∧
          now - state.last_api_call_timestamp < config.fetch_interval_seconds
      then config.fetch_interval_seconds - (now - state.last_api_call_timestamp)
      else config.fetch_interval_seconds := by
  unfold Fetcher.calculate_next_run_time
  cases hr : config.rate_limit_enabled <;>
    by_cases hlt : now - state.last_api_call_timestamp < config.fetch_interval_seconds <;>
      simp [hr, hlt]

/-- A readable backup whose stored `data` field is an empty (falsy)
object. -/
def c7FalsyBackup : Files :=
  { cache := .missing,
    backup := .json (.object [("timestamp", .string "2024-01-01T00:00:00"),
                           ("data", .object [])]) }

/-- C7 counterexample.  With no cache file and a perfectly readable
backup whose `data` field is an empty object, the startup restore writes
no cache file at all (the code restores only when the field is truthy),
so the claim as stated — a cache file is written whenever a readable
backup exists — is false. -/
theorem c7_readable_backup_not_restored :
    (Fetcher.startupRestore c7FalsyBackup "2024-01-02T00:00:00").cache
      = .missing := rfl

/-- C7 as amended.  When no cache file exists and the backup parses to an
object whose `data` field is a non-empty (truthy) JSON object, the
startup restore writes a cache file whose content is that `data` field
with its `_meta` replaced: the core content (everything outside `_meta`)
equals the backup data's core content, and the new `_meta` is exactly
`restoredMeta`, which carries `restored_from_backup = true` and the
backup's own `timestamp` field as `original_timestamp`. -/
theorem c7_backup_round_trip (files : Files) (nowIso : String)
    (bfs dfs : List (String × Json))
    (hc : files.cache = .missing)
    (hb : files.backup = .json (.object bfs))
    (hd : lookupKey bfs "data" = some (.object dfs))
    (ht : Json.truthy (.object dfs) = true) :
    (Fetcher.startupRestore files nowIso).cache
        = .json (.object (setKey dfs "_meta"
            (Fetcher.restoredMeta ((lookupKey bfs "timestamp").getD .null) nowIso)))
    ∧ eraseKey (setKey dfs "_meta"
          (Fetcher.restoredMeta ((lookupKey bfs "timestamp").getD .null) nowIso)) "_meta"
        = eraseKey dfs "_meta"
    ∧ lookupKey (setKey dfs "_meta"
          (Fetcher.restoredMeta ((lookupKey bfs "timestamp").getD .null) nowIso)) "_meta"
        = some (Fetcher.restoredMeta ((lookupKey bfs "timestamp").getD .null) nowIso) := by
  refine ⟨?_, eraseKey_setKey_self dfs "_meta" _, lookupKey_setKey_self dfs "_meta" _⟩
  unfold Fetcher.startupRestore
  rw [hc, hb]
  simp only [hd, Option.getD_some, ht, if_true]

/-- A well-formed backup holding a one-field payload object. -/
def c7GoodBackup : Files :=
  { cache := .missing,
    backup := .json (.object [("timestamp", .string "2024-01-01T00:00:00"),
                           ("data", .object [("x", .number 1)])]) }

/-- C7 witness: the amended restore applied to a concrete backup. -/
theorem c7_backup_round_trip_witness :
    (Fetcher.startupRestore c7GoodBackup "2024-01-02T00:00:00").cache
        = .json (.object (setKey [("x", .number 1)] "_meta"
            (Fetcher.restoredMeta ((lookupKey [("timestamp", Json.string "2024-01-01T00:00:00"),
                ("data", Json.object [("x", Json.number 1)])] "timestamp").getD .null)
              "2024-01-02T00:00:00")))
    ∧ eraseKey (setKey [("x", .number 1)] "_meta"
          (Fetcher.restoredMeta ((lookupKey [("timestamp", Json.string "2024-01-01T00:00:00"),
              ("data", Json.object [("x", Json.number 1)])] "timestamp").getD .null)
            "2024-01-02T00:00:00")) "_meta"
        = eraseKey [("x", .number 1)] "_meta"
    ∧ lookupKey (setKey [("x", .number 1)] "_meta"
          (Fetcher.restoredMeta ((lookupKey [("timestamp", Json.string "2024-01-01T00:00:00"),
              ("data", Json.object [("x", Json.number 1)])] "timestamp").getD .null)
            "2024-01-02T00:00:00")) "_meta"
        = some (Fetcher.restoredMeta ((lookupKey [("timestamp", Json.string "2024-01-01T00:00:00"),
            ("data", Json.object [("x", Json.number 1)])] "timestamp").getD .null)
          "2024-01-02T00:00:00") :=
  c7_backup_round_trip c7GoodBackup "2024-01-02T00:00:00"
    [("timestamp", .string "2024-01-01T00:00:00"), ("data", .object [("x", .number 1)])]
    [("x", .number 1)] rfl rfl rfl rfl

/-- Stored configuration for the C9 scenario. -/
def c9Config : List (String × Json) :=
  [("fetch_interval_seconds", .number 300), ("rate_limit_enabled", .boolean true)]

/-- A body mixing a field that fails validation (interval 5) with a field
that is acceptable on its own (rate-limit flag). -/
def c9Body : List (String × Json) :=
  [("fetch_interval_seconds", .number 5), ("rate_limit_enabled", .boolean false)]

/-- C9 counterexample.  With an invalid interval and an acceptable
rate-limit flag in the same body, the endpoint returns 400 and saves
nothing: the acceptable field is not applied, contradicting the claim
that a rejected field does not block accepted fields in the same
request. -/
theorem c9_rejected_field_blocks_accepted_fields :
    (ApiServer.manage_config_post c9Config c9Body true).status = 400
    ∧ (ApiServer.manage_config_post c9Config c9Body true).savedConfig = none :=
  ⟨rfl, rfl⟩

/-- C9 as amended.  Validation errors are reported synchronously as a 4xx
with a descriptive message, and any rejection (400 or 403) aborts the
whole request: no field of that request is persisted — in particular an
interval below 10 always yields 400. -/
theorem c9_validation_aborts_request (config body : List (String × Json))
    (saveOk : Bool) :
    (400 ≤ (ApiServer.manage_config_post config body saveOk).status →
      (ApiServer.manage_config_post config body saveOk).savedConfig = none
      ∧ ∃ m, (ApiServer.manage_config_post config body saveOk).message = some m
          ∧ m ≠ "")
    ∧ (lookupKey body "fetch_interval_seconds" = some (.number 5) →
        (ApiServer.manage_config_post config body saveOk).status = 400) := by
  constructor
  · intro h400
    unfold ApiServer.manage_config_post at h400 ⊢
    by_cases hne : body.isEmpty = true
    · rw [if_pos hne] at h400 ⊢
      exact ⟨by first | exact rfl | exact trivial, "No data provided", rfl, by decide⟩
    · rw [if_neg hne] at h400 ⊢
      cases h1 : lookupKey body "fetch_interval_seconds" with
      | none =>
        simp only [h1] at h400 ⊢
        by_cases h : hasKey body "endpoint_url" = true
        · rw [if_pos h] at h400 ⊢
          exact ⟨by first | exact rfl | exact trivial, _, rfl, by decide⟩
        · rw [if_neg h] at h400 ⊢
          cases hs : saveOk with
          | true => simp [hs] at h400
          | false =>
            simp only [hs, Bool.false_eq_true, if_false] at h400 ⊢
            exact ⟨by first | exact rfl | exact trivial, _, rfl, by decide⟩
      | some v =>
        simp only [h1] at h400 ⊢
        cases h2 : ApiServer.jsonToInt v with
        | none =>
          simp only [h2] at h400 ⊢
          exact ⟨by first | exact rfl | exact trivial, _, rfl, by decide⟩
        | some i =>
          simp only [h2] at h400 ⊢
          by_cases h3 : i < 10
          · rw [if_pos h3] at h400 ⊢
            exact ⟨by first | exact rfl | exact trivial, _, rfl, by decide⟩
          · rw [if_neg h3] at h400 ⊢
            dsimp only at h400 ⊢
            by_cases h : hasKey body "endpoint_url" = true
            · rw [if_pos h] at h400 ⊢
              exact ⟨by first | exact rfl | exact trivial, _, rfl, by decide⟩
            · rw [if_neg h] at h400 ⊢
              cases hs : saveOk with
              | true => simp [hs] at h400
              | false =>
                simp only [hs, Bool.false_eq_true, if_false] at h400 ⊢
                exact ⟨by first | exact rfl | exact trivial, _, rfl, by decide⟩
  · intro h5
    have hne : body.isEmpty = false := by
      cases body with
      | nil => simp [lookupKey] at h5
      | cons q rest => rfl
    unfold ApiServer.manage_config_post
    rw [if_neg (by simp [hne])]
    simp only [h5, ApiServer.jsonToInt]
    rw [if_pos (by decide : (5 : Int) < 10)]

/-- C9 witness: the amended behaviour applied to a concrete 400-rejected
request. -/
theorem c9_validation_aborts_request_witness :
    ((ApiServer.manage_config_post c9Config [("fetch_interval_seconds", Json.number 5)]
        true).savedConfig = none
      ∧ ∃ m, (ApiServer.manage_config_post c9Config
          [("fetch_interval_seconds", Json.number 5)] true).message = some m ∧ m ≠ "")
    ∧ (ApiServer.manage_config_post c9Config [("fetch_interval_seconds", Json.number 5)]
        true).status = 400 :=
  ⟨(c9_validation_aborts_request c9Config [("fetch_interval_seconds", Json.number 5)]
      true).1 (by decide),
   (c9_validation_aborts_request c9Config [("fetch_interval_seconds", Json.number 5)]
      true).2 rfl⟩

/-- A falsy cache file (empty JSON object) next to a backup whose `data`
field is truthy. -/
def c10Files : Files :=
  { cache := .json (.object []),
    backup := .json (.object [("timestamp", .string "2024-01-01T00:00:00"),
                           ("data", .object [("x", .number 1)])]) }

/-- C10 counterexample.  A cache file that parses to a falsy value (the
empty object) makes `GET /data` answer 404 even though the backup file
exists and holds a truthy `data` field — the backup is consulted only
when the cache file is absent or unreadable, so "404 only when neither
source yields a truthy payload" is false. -/
theorem c10_falsy_cache_shadows_backup :
    ApiServer.get_data c10Files = .notFound
    ∧ ((lookupKey [("timestamp", Json.string "2024-01-01T00:00:00"),
          ("data", Json.object [("x", Json.number 1)])] "data").getD .null).truthy = true :=
  ⟨rfl, rfl⟩

/-- C10 as amended.  `GET /data` returns 200 with the cache file's
payload when that file exists, parses, and the payload is truthy, and 404
when it parses falsy (whatever the backup holds); only when the cache
file is absent or unreadable is the backup consulted, answering 200 with
its `data` field when the backup parses to an object with a truthy
`data`, and 404 otherwise. -/
theorem c10_get_data_semantics (files : Files) :
    (∀ j, files.cache = .json j →
      ApiServer.get_data files = if j.truthy then .ok j else .notFound)
    ∧ ((files.cache = .missing ∨ files.cache = .corrupt) →
        ApiServer.get_data files =
          match files.backup with
          | .json (.object bfs) =>
            if ((lookupKey bfs "data").getD .null).truthy
            then .ok ((lookupKey bfs "data").getD .null) else .notFound
          | _ => .notFound) := by
  constructor
  · intro j hj
    unfold ApiServer.get_data ApiServer.get_cached_data
    rw [hj]
  · intro h
    unfold ApiServer.get_data ApiServer.get_cached_data
    have hv : (match files.cache with
        | FileContent.json j => some j
        | _ =>
          match files.backup with
          | FileContent.json (Json.object bfs) => some ((lookupKey bfs "data").getD .null)
          | _ => none) =
        (match files.backup with
          | FileContent.json (Json.object bfs) => some ((lookupKey bfs "data").getD .null)
          | _ => none) := by
      rcases h with h | h <;> rw [h]
    rw [hv]
    cases hb : files.backup with
    | missing => rfl
    | corrupt => rfl
    | json j =>
      cases j with
      | object bfs => rfl
      | null => rfl
      | boolean b => rfl
      | number n => rfl
      | string s => rfl
      | array xs => rfl

/-- Cache absent, backup present with truthy data, for the C10 witness. -/
def c10WitnessFiles : Files :=
  { cache := .missing,
    backup := .json (.object [("data", .object [("y", .number 2)])]) }

/-- C10 witness: the amended semantics applied to a missing cache with a
truthy backup. -/
theorem c10_get_data_semantics_witness :
    ApiServer.get_data c10WitnessFiles =
      match c10WitnessFiles.backup with
      | .json (.object bfs) =>
        if ((lookupKey bfs "data").getD .null).truthy
        then .ok ((lookupKey bfs "data").getD .null) else .notFound
      | _ => .notFound :=
  (c10_get_data_semantics c10WitnessFiles).2 (Or.inl rfl)

end JsonCacher
